import Mathlib

/-!
Shallow embedding of `UsabilityTestingApp.py`, a Streamlit usability-testing
tool: four CSV-backed stores (consent, demographics, tasks, exit survey),
a task timer kept in session state, and a report tab with success-rate
aggregation.  Wall-clock instants and durations are modelled as rationals;
CSV cell values keep their Python type (string, number, boolean).  The
`@st.cache_data` decorator on `save_to_csv` and `load_from_csv` memoizes
those functions on their arguments, so the storage state carries the two
memoization caches explicitly.
-/

set_option autoImplicit false

namespace UsabilityApp

/-- A CSV cell value as produced by the Python handlers: a string,
a number, or a boolean. -/
inductive Val where
  | str (s : String)
  | num (q : ℚ)
  | bool (b : Bool)
deriving DecidableEq, Repr

/-- A Python dict passed to `save_to_csv`: an ordered list of
(column name, value) pairs. -/
abbrev Dict := List (String × Val)

/-- A CSV file on disk: the header row and the data rows. -/
structure CsvFile where
  header : List String
  rows : List (List Val)
deriving DecidableEq, Repr

/-- A pandas DataFrame as returned by `load_from_csv`: column names and
rows.  `pd.DataFrame()` is `⟨[], []⟩`. -/
structure DataFrame where
  cols : List String
  rows : List (List Val)
deriving DecidableEq, Repr

/-- `df.empty`: for the frames this app builds, true exactly when there
are no data rows. -/
def DataFrame.isEmpty (df : DataFrame) : Bool :=
  df.rows.isEmpty

/-- The CSV file paths defined at module scope
(`os.path.join("data", ...)`). -/
def CONSENT_CSV : String := "data/consent_data.csv"

def DEMOGRAPHIC_CSV : String := "data/demographic_data.csv"

def TASK_CSV : String := "data/task_data.csv"

def EXIT_CSV : String := "data/exit_data.csv"

/-- Lookup in an association list keyed by path. -/
def findAssoc {β : Type} (p : String) : List (String × β) → Option β
  | [] => none
  | (q, v) :: rest => if q = p then some v else findAssoc p rest

/-- Write-through update of an association list keyed by path. -/
def setAssoc {β : Type} (p : String) (v : β) : List (String × β) → List (String × β)
  | [] => [(p, v)]
  | (q, w) :: rest => if q = p then (p, v) :: rest else (q, w) :: setAssoc p v rest

/-- The persistent state the two storage functions touch: the file system
(path to CSV file) plus the `st.cache_data` memoization caches of
`save_to_csv` (keyed by its argument pair) and `load_from_csv` (keyed by
the path, holding the memoized DataFrame). -/
structure Storage where
  files : List (String × CsvFile)
  saveCache : List (Dict × String)
  loadCache : List (String × DataFrame)
deriving DecidableEq, Repr

/-- A fresh process: no files written, both memoization caches empty. -/
def emptyStorage : Storage := ⟨[], [], []⟩

/-- `save_to_csv(data_dict, csv_file)`: memoized by `@st.cache_data`, so a
call whose argument pair was already seen does nothing.  Otherwise it
creates the file with a header row when absent, and appends the single
data row without a header when present. -/
def save_to_csv (d : Dict) (p : String) (st : Storage) : Storage :=
  if (d, p) ∈ st.saveCache then st
  else
    let files' :=
      match findAssoc p st.files with
      | none => setAssoc p ⟨d.map Prod.fst, [d.map Prod.snd]⟩ st.files
      | some f => setAssoc p ⟨f.header, f.rows ++ [d.map Prod.snd]⟩ st.files
    { st with files := files', saveCache := st.saveCache ++ [(d, p)] }

/-- `load_from_csv(csv_file)`: memoized by `@st.cache_data` on the path,
so a repeated read returns the memoized DataFrame.  A first read returns
the parsed file, or `pd.DataFrame()` when the file does not exist, and
memoizes the result. -/
def load_from_csv (p : String) (st : Storage) : DataFrame × Storage :=
  match findAssoc p st.loadCache with
  | some df => (df, st)
  | none =>
    let df : DataFrame :=
      match findAssoc p st.files with
      | some f => ⟨f.header, f.rows⟩
      | none => ⟨[], []⟩
    (df, { st with loadCache := st.loadCache ++ [(p, df)] })

/-- The data rows currently on disk at a path (empty when the file does
not exist).  Bypasses the caches: this is the file system itself. -/
def rowsAt (p : String) (st : Storage) : List (List Val) :=
  match findAssoc p st.files with
  | some f => f.rows
  | none => []

/-! ### Form handlers -/

/-- The consent tab's submit handler: with the checkbox unchecked it only
shows a warning (`True` in the second component) and leaves storage
untouched; with it checked it saves the timestamp and flag. -/
def consentSubmit (ts : String) (consent_given : Bool) (st : Storage) :
    Storage × Bool :=
  if !consent_given then (st, true)
  else
    (save_to_csv [("timestamp", .str ts), ("consent_given", .bool consent_given)]
      CONSENT_CSV st, false)

/-- The demographics form's submit handler.  As in the source, the record
is saved first and the emptiness check (`not age or not occupation or not
familiarity`; `age` is falsy exactly when `0`) only decides afterwards
whether the warning (`True`) or the success message is shown. -/
def demographicSubmit (ts name : String) (age : ℕ)
    (occupation familiarity : String) (st : Storage) : Storage × Bool :=
  let d : Dict := [("timestamp", .str ts), ("name", .str name),
    ("age", .num age), ("occupation", .str occupation),
    ("familiarity", .str familiarity)]
  let st' := save_to_csv d DEMOGRAPHIC_CSV st
  (st', age = 0 || occupation = "" || familiarity = "")

/-! ### Task tab session state -/

/-- The session-state keys the task tab reads and writes.  An absent key
is `none` (for `previous_task`, `start_time`, `task_duration`) or the
default `false` (for `task_completed`, read via `.get(..., False)`). -/
structure TaskSess where
  previous_task : Option String
  task_completed : Bool
  start_time : Option ℚ
  task_duration : Option ℚ
deriving DecidableEq, Repr

/-- A fresh session: no key set. -/
def initSess : TaskSess := ⟨none, false, none, none⟩

/-- The rerun prologue of the task tab: when `previous_task` is absent or
differs from the selected label, record the label and reset
`task_completed` and `start_time`.  `task_duration` is not touched. -/
def taskSelect (label : String) (ss : TaskSess) : TaskSess :=
  if ss.previous_task ≠ some label then
    { previous_task := some label, task_completed := false,
      start_time := none, task_duration := ss.task_duration }
  else ss

/-- The "Start Task Timer" button handler: records the current wall-clock
instant. -/
def startTimer (t : ℚ) (ss : TaskSess) : TaskSess :=
  { ss with start_time := some t }

/-- The "Stop Task Timer" button handler: with a pending start instant it
stores the elapsed time as `task_duration`, then clears `start_time` and
leaves `task_completed` back at `False`; otherwise it does nothing. -/
def stopTimer (t : ℚ) (ss : TaskSess) : TaskSess :=
  match ss.start_time with
  | some t0 =>
      { ss with task_duration := some (t - t0), task_completed := false, start_time := none }
  | none => ss

/-- The serialization of the duration field in the saved record:
`duration_val if duration_val else ""`, where `duration_val` is falsy
when absent or `0.0`. -/
def durationCell (d : Option ℚ) : Val :=
  match d with
  | some q => if q = 0 then .str "" else .num q
  | none => .str ""

/-- The "Save Task Results" button handler: with an empty success status
it only warns (`True` in the last component); otherwise it appends the
record and deletes `start_time` and `task_duration` from the session. -/
def saveTask (ts label success notes : String) (ss : TaskSess)
    (st : Storage) : TaskSess × Storage × Bool :=
  if success = "" then (ss, st, true)
  else
    let d : Dict := [("timestamp", .str ts), ("task_name", .str label),
      ("success", .str success),
      ("duration_seconds", durationCell ss.task_duration),
      ("notes", .str notes)]
    ({ ss with start_time := none, task_duration := none },
      save_to_csv d TASK_CSV st, false)

/-! ### Report tab -/

/-- What the report tab renders per table: the loaded DataFrame and
whether the "No ... available yet" indicator was shown.  `chartsShown`
records whether the two task charts were rendered. -/
structure ReportView where
  consentDf : DataFrame
  consentNoData : Bool
  demographicDf : DataFrame
  demographicNoData : Bool
  taskDf : DataFrame
  taskNoData : Bool
  exitDf : DataFrame
  exitNoData : Bool
  chartsShown : Bool
deriving DecidableEq, Repr

/-- The report tab: loads the four tables in order (threading the
memoization cache) and shows the "no data yet" indicator for each table
whose DataFrame is empty; the charts are drawn only when the task table
is non-empty. -/
def reportView (st : Storage) : ReportView × Storage :=
  let c := load_from_csv CONSENT_CSV st
  let d := load_from_csv DEMOGRAPHIC_CSV c.2
  let t := load_from_csv TASK_CSV d.2
  let e := load_from_csv EXIT_CSV t.2
  (⟨c.1, c.1.isEmpty, d.1, d.1.isEmpty, t.1, t.1.isEmpty,
    e.1, e.1.isEmpty, !t.1.isEmpty⟩, e.2)

/-! ### Success-rate aggregation (second chart) -/

/-- One task record as the chart pipeline sees it: its `task_name` and
`success` columns. -/
structure TaskRow where
  task_name : String
  success : String
deriving DecidableEq, Repr

/-- The count behind one cell of
`groupby('task_name')['success'].value_counts().unstack().fillna(0)`:
how many records have the given label and outcome (0 for a filled-in
missing category). -/
def cellCount (rs : List TaskRow) (label outcome : String) : ℕ :=
  match rs with
  | [] => 0
  | r :: rest =>
      (if r.task_name = label ∧ r.success = outcome then 1 else 0) +
        cellCount rest label outcome

/-- How many records carry the given task label. -/
def labelCount (rs : List TaskRow) (label : String) : ℕ :=
  match rs with
  | [] => 0
  | r :: rest => (if r.task_name = label then 1 else 0) + labelCount rest label

/-- The outcome categories appearing anywhere in the data, without
duplicates: the columns of the unstacked frame. -/
def outcomesOf : List TaskRow → List String
  | [] => []
  | r :: rest =>
      if r.success ∈ outcomesOf rest then outcomesOf rest
      else r.success :: outcomesOf rest

/-- The row sum `task_success_per_task.sum(axis=1)` for one label: the
cell counts summed over every outcome column of the unstacked frame. -/
def rowTotal (rs : List TaskRow) (label : String) : ℕ :=
  ((outcomesOf rs).map (fun o => cellCount rs label o)).sum

/-- The plotted value of the "Success Rates per Task" chart at one
(label, outcome) cell: the cell count divided by the row sum, times
100. -/
def chartValue (rs : List TaskRow) (label outcome : String) : ℚ :=
  (cellCount rs label outcome : ℚ) / (rowTotal rs label : ℚ) * 100

/-! ### Exit questionnaire -/

/-- The exit questionnaire's submit handler: always saves the two slider
values and the feedback text. -/
def exitSubmit (ts : String) (satisfaction difficulty : ℕ)
    (open_feedback : String) (st : Storage) : Storage :=
  save_to_csv [("timestamp", .str ts), ("satisfaction", .num satisfaction),
    ("difficulty", .num difficulty), ("open_feedback", .str open_feedback)]
    EXIT_CSV st

/-- The number of records with the given label whose outcome lies in
`os`: the proof-layer bridge between the summed unstack columns and the
per-label row count. -/
def countIn (rs : List TaskRow) (label : String) (os : List String) : ℕ :=
  match rs with
  | [] => 0
  | r :: rest =>
      (if r.task_name = label ∧ r.success ∈ os then 1 else 0) +
        countIn rest label os

/-! ### Concrete sample data for the testable properties -/

/-- Five task records for a single task label with outcomes
Yes×3, No×1, Partial×1. -/
def chartExample : List TaskRow :=
  [⟨"Task 1: Wait for User Input", "Yes"⟩, ⟨"Task 1: Wait for User Input", "Yes"⟩,
   ⟨"Task 1: Wait for User Input", "Yes"⟩, ⟨"Task 1: Wait for User Input", "No"⟩,
   ⟨"Task 1: Wait for User Input", "Partial"⟩]

/-- A concrete consent record as the consent handler builds it. -/
def sampleConsentDict : Dict :=
  [("timestamp", .str "2026-01-01 10:00:00"), ("consent_given", .bool true)]

/-- A concrete task record as the save handler builds it when the timer
never ran. -/
def sampleTaskDict : Dict :=
  [("timestamp", .str "2026-01-01 10:05:00"),
   ("task_name", .str "Task 1: Wait for User Input"),
   ("success", .str "Yes"), ("duration_seconds", .str ""), ("notes", .str "")]

/-! ### Helper lemmas -/

theorem findAssoc_setAssoc {β : Type} (p : String) (v : β) :
    ∀ l : List (String × β), findAssoc p (setAssoc p v l) = some v
  | [] => by simp [findAssoc, setAssoc]
  | (q, w) :: rest => by
      by_cases h : q = p
      · simp [findAssoc, setAssoc, h]
      · simp [findAssoc, setAssoc, h, findAssoc_setAssoc p v rest]

theorem findAssoc_append_none {β : Type} (p : String) (v : β) :
    ∀ l : List (String × β), findAssoc p l = none →
      findAssoc p (l ++ [(p, v)]) = some v
  | [] => by simp [findAssoc]
  | (q, w) :: rest => by
      by_cases h : q = p
      · simp [findAssoc, h]
      · simp [findAssoc, h]
        exact findAssoc_append_none p v rest

theorem save_of_mem {d : Dict} {p : String} {st : Storage}
    (h : (d, p) ∈ st.saveCache) : save_to_csv d p st = st := by
  unfold save_to_csv
  simp [h]

theorem save_mem_saveCache (d : Dict) (p : String) (st : Storage) :
    (d, p) ∈ (save_to_csv d p st).saveCache := by
  unfold save_to_csv
  by_cases h : (d, p) ∈ st.saveCache
  · simp [h]
  · simp [h]

theorem save_loadCache (d : Dict) (p : String) (st : Storage) :
    (save_to_csv d p st).loadCache = st.loadCache := by
  unfold save_to_csv
  by_cases h : (d, p) ∈ st.saveCache
  · simp [h]
  · simp [h]

theorem rowsAt_save {d : Dict} {p : String} {st : Storage}
    (h : (d, p) ∉ st.saveCache) :
    rowsAt p (save_to_csv d p st) = rowsAt p st ++ [d.map Prod.snd] := by
  unfold save_to_csv rowsAt
  cases hf : findAssoc p st.files with
  | none => simp [h, hf, findAssoc_setAssoc]
  | some f => simp [h, hf, findAssoc_setAssoc]

theorem load_cached {p : String} {st : Storage} {df : DataFrame}
    (h : findAssoc p st.loadCache = some df) :
    load_from_csv p st = (df, st) := by
  unfold load_from_csv
  simp [h]

theorem load_loadCache_lookup (p : String) (st : Storage) :
    findAssoc p (load_from_csv p st).2.loadCache =
      some (load_from_csv p st).1 := by
  unfold load_from_csv
  cases hc : findAssoc p st.loadCache with
  | some df => simp [hc]
  | none => simp [hc, findAssoc_append_none p _ _ hc]

theorem load_uncached_rows {p : String} {st : Storage}
    (h : findAssoc p st.loadCache = none) :
    (load_from_csv p st).1.rows = rowsAt p st := by
  unfold load_from_csv rowsAt
  cases hf : findAssoc p st.files with
  | none => simp [h, hf]
  | some f => simp [h, hf]

theorem sum_map_add {α : Type} (l : List α) (f g : α → ℕ) :
    (l.map (fun x => f x + g x)).sum = (l.map f).sum + (l.map g).sum := by
  induction l with
  | nil => simp
  | cons a l ih =>
      simp only [List.map_cons, List.sum_cons, ih]
      ring

theorem sum_indicator (r : TaskRow) (label : String) :
    ∀ os : List String, os.Nodup →
      (os.map (fun o => if r.task_name = label ∧ r.success = o then 1 else 0)).sum
        = (if r.task_name = label ∧ r.success ∈ os then 1 else 0)
  | [], _ => by simp
  | o :: os, h => by
      have ho : o ∉ os := (List.nodup_cons.mp h).1
      have ih := sum_indicator r label os (List.nodup_cons.mp h).2
      simp only [List.map_cons, List.sum_cons, ih, List.mem_cons]
      by_cases hl : r.task_name = label
      · by_cases he : r.success = o
        · have hn : r.success ∉ os := he ▸ ho
          simp only [hl, he, hn, true_and, if_true, if_false]
          simp [ho]
        · simp [hl, he]
      · simp [hl]

theorem sum_cellCount (label : String) (os : List String) (hos : os.Nodup) :
    ∀ rs : List TaskRow,
      (os.map (fun o => cellCount rs label o)).sum = countIn rs label os
  | [] => by simp [cellCount, countIn]
  | r :: rest => by
      simp only [cellCount, countIn]
      rw [sum_map_add, sum_indicator r label os hos, sum_cellCount label os hos rest]

theorem countIn_eq_labelCount (label : String) (os : List String) :
    ∀ rs : List TaskRow, (∀ r ∈ rs, r.success ∈ os) →
      countIn rs label os = labelCount rs label
  | [], _ => by simp [countIn, labelCount]
  | r :: rest, h => by
      have hr : r.success ∈ os := h r (List.mem_cons_self r rest)
      have ih := countIn_eq_labelCount label os rest
        (fun x hx => h x (List.mem_cons_of_mem r hx))
      simp only [countIn, labelCount, hr, and_true, ih]

theorem outcomesOf_nodup : ∀ rs : List TaskRow, (outcomesOf rs).Nodup
  | [] => by simp [outcomesOf]
  | r :: rest => by
      by_cases h : r.success ∈ outcomesOf rest
      · simpa [outcomesOf, h] using outcomesOf_nodup rest
      · simp only [outcomesOf, if_neg h]
        exact List.nodup_cons.mpr ⟨h, outcomesOf_nodup rest⟩

theorem mem_outcomesOf : ∀ (rs : List TaskRow), ∀ r ∈ rs, r.success ∈ outcomesOf rs
  | [], r, hr => by simp at hr
  | x :: rest, r, hr => by
      rcases List.mem_cons.mp hr with h | h
      · subst h
        by_cases hx : r.success ∈ outcomesOf rest
        · simp [outcomesOf, hx]
        · simp [outcomesOf, hx]
      · have := mem_outcomesOf rest r h
        by_cases hx : x.success ∈ outcomesOf rest
        · simpa [outcomesOf, hx] using this
        · simp [outcomesOf, hx, this]

theorem rowTotal_eq_labelCount (rs : List TaskRow) (label : String) :
    rowTotal rs label = labelCount rs label := by
  rw [rowTotal, sum_cellCount label (outcomesOf rs) (outcomesOf_nodup rs) rs,
    countIn_eq_labelCount label (outcomesOf rs) rs (mem_outcomesOf rs)]

/-! ### Claims -/

/-- Claim C1 (code bug): the demographics handler saves the record before
running the emptiness check, so a submission with an empty required field
(here: empty familiarity) both raises the inline warning and stores the
record anyway — the stored record's familiarity is not one of the three
enumerated values. -/
theorem claim_C1_demographic_record_stored_despite_warning :
    (demographicSubmit "2026-01-01 10:01:00" "" 30 "Engineer" "" emptyStorage).2 = true
    ∧ rowsAt DEMOGRAPHIC_CSV
        (demographicSubmit "2026-01-01 10:01:00" "" 30 "Engineer" "" emptyStorage).1
      = [[Val.str "2026-01-01 10:01:00", Val.str "", Val.num 30,
          Val.str "Engineer", Val.str ""]] := by
  constructor
  · simp [demographicSubmit]
  · simp [demographicSubmit, save_to_csv, emptyStorage, rowsAt, findAssoc, setAssoc]

/-- Claim C3: every cell of the "Success Rates per Task" chart equals the
count of that outcome among the label's records, divided by the label's
record total, times 100 (absent categories counting zero), and the
Yes×3/No×1/Partial×1 example yields shares 60, 20, 20. -/
theorem claim_C3_success_rate_chart :
    (∀ (rs : List TaskRow) (label outcome : String),
      chartValue rs label outcome =
        (cellCount rs label outcome : ℚ) / (labelCount rs label : ℚ) * 100)
    ∧ chartValue chartExample "Task 1: Wait for User Input" "Yes" = 60
    ∧ chartValue chartExample "Task 1: Wait for User Input" "No" = 20
    ∧ chartValue chartExample "Task 1: Wait for User Input" "Partial" = 20 := by
  refine ⟨fun rs label outcome => ?_, ?_, ?_, ?_⟩
  · rw [chartValue, rowTotal_eq_labelCount]
  · simp [chartValue, chartExample, cellCount, rowTotal, outcomesOf]
    norm_num
  · simp [chartValue, chartExample, cellCount, rowTotal, outcomesOf]
    norm_num
  · simp [chartValue, chartExample, cellCount, rowTotal, outcomesOf]
    norm_num

/-- Claim C4: submitting the consent form with the agreement checkbox
unchecked leaves the storage state (hence the consent record count)
unchanged and shows the warning. -/
theorem claim_C4_consent_unchecked_stores_nothing :
    ∀ (ts : String) (st : Storage), consentSubmit ts false st = (st, true) := by
  intro ts st
  rfl

/-- Claim C9: `save_to_csv` is memoized by `st.cache_data`, so repeating a
call with an equal record and path is a no-op — the whole storage state,
caches and files alike, is unchanged — and two identical consent
submissions leave exactly one row in the file. -/
theorem claim_C9_memoized_save_writes_once :
    (∀ (d : Dict) (p : String) (st : Storage),
      save_to_csv d p (save_to_csv d p st) = save_to_csv d p st)
    ∧ rowsAt CONSENT_CSV
        (consentSubmit "2026-01-01 10:00:00" true
          (consentSubmit "2026-01-01 10:00:00" true emptyStorage).1).1
      = [[Val.str "2026-01-01 10:00:00", Val.bool true]] := by
  refine ⟨fun d p st => save_of_mem (save_mem_saveCache d p st), ?_⟩
  simp [consentSubmit, save_to_csv, emptyStorage, rowsAt, findAssoc, setAssoc]

/-- Claim C10: `load_from_csv` is memoized on the path, so a read, then an
append to the same path, then a second read returns exactly the first
read's DataFrame; concretely, after reading the missing task table and
then appending a record, the re-read still returns the empty DataFrame
while the file on disk holds the new row. -/
theorem claim_C10_stale_read_after_append :
    (∀ (st : Storage) (p : String) (d : Dict),
      (load_from_csv p (save_to_csv d p (load_from_csv p st).2)).1
        = (load_from_csv p st).1)
    ∧ (load_from_csv TASK_CSV
        (save_to_csv sampleTaskDict TASK_CSV
          (load_from_csv TASK_CSV emptyStorage).2)).1 = ⟨[], []⟩
    ∧ rowsAt TASK_CSV
        (save_to_csv sampleTaskDict TASK_CSV
          (load_from_csv TASK_CSV emptyStorage).2)
      = [sampleTaskDict.map Prod.snd] := by
  refine ⟨fun st p d => ?_, ?_, ?_⟩
  · have h2 : findAssoc p (save_to_csv d p (load_from_csv p st).2).loadCache
        = some (load_from_csv p st).1 := by
      rw [save_loadCache]
      exact load_loadCache_lookup p st
    rw [load_cached h2]
  · simp [load_from_csv, save_to_csv, emptyStorage, findAssoc, setAssoc,
      sampleTaskDict]
  · simp [rowsAt, load_from_csv, save_to_csv, emptyStorage, findAssoc, setAssoc,
      sampleTaskDict]

/-- Counterexample to claim C2: starting and stopping the timer on Task 1
and then switching to Task 2 leaves `task_duration` set to the measured
2.5 seconds — the selection-change reset does not discard it — and a save
performed after the switch, with no new stop, stores that duration rather
than an empty value. -/
theorem claim_C2_duration_survives_task_switch :
    (taskSelect "Task 2: Process Data"
      (stopTimer (5/2) (taskSelect "Task 1: Wait for User Input"
        (startTimer 0 (taskSelect "Task 1: Wait for User Input" initSess))))).task_duration
      ≠ none
    ∧ rowsAt TASK_CSV
        (saveTask "2026-01-01 10:05:00" "Task 2: Process Data" "Yes" ""
          (taskSelect "Task 2: Process Data"
            (stopTimer (5/2) (taskSelect "Task 1: Wait for User Input"
              (startTimer 0 (taskSelect "Task 1: Wait for User Input" initSess)))))
          emptyStorage).2.1
      = [[Val.str "2026-01-01 10:05:00", Val.str "Task 2: Process Data",
          Val.str "Yes", Val.num (5/2), Val.str ""]] := by
  constructor
  · simp [taskSelect, stopTimer, startTimer, initSess]
  · simp [taskSelect, stopTimer, startTimer, initSess, saveTask, save_to_csv,
      emptyStorage, rowsAt, durationCell, findAssoc, setAssoc]

/-- Claim C2 as amended: a change of the selected task label records the
new label and resets the completion flag and the pending start instant,
but retains the last measured duration unchanged. -/
theorem claim_C2_switch_resets_start_not_duration :
    ∀ (ss : TaskSess) (label : String), ss.previous_task ≠ some label →
      (taskSelect label ss).previous_task = some label
      ∧ (taskSelect label ss).task_completed = false
      ∧ (taskSelect label ss).start_time = none
      ∧ (taskSelect label ss).task_duration = ss.task_duration := by
  intro ss label h
  unfold taskSelect
  rw [if_pos h]
  exact ⟨rfl, rfl, rfl, rfl⟩

/-- Witness for the amended claim C2, at a fresh session selecting
Task 1. -/
theorem claim_C2_switch_resets_witness :
    (initSess.previous_task ≠ some "Task 1: Wait for User Input")
    ∧ (taskSelect "Task 1: Wait for User Input" initSess).start_time = none
    ∧ (taskSelect "Task 1: Wait for User Input" initSess).task_duration
        = initSess.task_duration := by
  have h : initSess.previous_task ≠ some "Task 1: Wait for User Input" := by
    simp [initSess]
  exact ⟨h,
    (claim_C2_switch_resets_start_not_duration initSess _ h).2.2.1,
    (claim_C2_switch_resets_start_not_duration initSess _ h).2.2.2⟩

/-- Claim C5: for a start-then-stop sequence on one selected task (with
the selection prologue re-run before each click, as on every Streamlit
rerun), the recorded duration is exactly the stop instant minus the start
instant. -/
theorem claim_C5_stop_records_elapsed :
    ∀ (ss : TaskSess) (label : String) (t1 t2 : ℚ), label ≠ "" →
      (stopTimer t2 (taskSelect label
        (startTimer t1 (taskSelect label ss)))).task_duration
        = some (t2 - t1) := by
  intro ss label t1 t2 _
  by_cases h : ss.previous_task ≠ some label
  · simp [taskSelect, startTimer, stopTimer, h]
  · simp [taskSelect, startTimer, stopTimer, h]

/-- Witness for claim C5: a simulated 2.5-second gap (start at 10, stop
at 12.5) records exactly 2.5 seconds. -/
theorem claim_C5_elapsed_witness :
    ("Task 1: Wait for User Input" ≠ "")
    ∧ (stopTimer (25/2) (taskSelect "Task 1: Wait for User Input"
        (startTimer 10 (taskSelect "Task 1: Wait for User Input" initSess)))).task_duration
      = some (5/2) := by
  refine ⟨by decide, ?_⟩
  have h := claim_C5_stop_records_elapsed initSess "Task 1: Wait for User Input"
    10 (25/2) (by decide)
  rw [h]
  norm_num

/-- Claim C6: saving task results with no recorded duration appends one
record whose `duration_seconds` field is the empty string while
timestamp, task name, outcome and notes are stored as entered. -/
theorem claim_C6_save_without_duration :
    ∀ (ts label success notes : String) (ss : TaskSess) (st : Storage),
      ss.task_duration = none → success ≠ "" →
      ([("timestamp", Val.str ts), ("task_name", Val.str label),
        ("success", Val.str success), ("duration_seconds", Val.str ""),
        ("notes", Val.str notes)], TASK_CSV) ∉ st.saveCache →
      rowsAt TASK_CSV (saveTask ts label success notes ss st).2.1
        = rowsAt TASK_CSV st
          ++ [[Val.str ts, Val.str label, Val.str success, Val.str "",
               Val.str notes]] := by
  intro ts label success notes ss st hd hs hc
  unfold saveTask
  rw [if_neg hs]
  simp only [hd, durationCell]
  simpa using rowsAt_save hc

/-- Witness for claim C6: saving on a fresh session and fresh storage
stores the record with an empty duration field. -/
theorem claim_C6_save_without_duration_witness :
    (initSess.task_duration = none)
    ∧ ("Yes" ≠ "")
    ∧ (([("timestamp", Val.str "2026-01-01 10:05:00"),
         ("task_name", Val.str "Task 1: Wait for User Input"),
         ("success", Val.str "Yes"), ("duration_seconds", Val.str ""),
         ("notes", Val.str "")], TASK_CSV) ∉ emptyStorage.saveCache)
    ∧ rowsAt TASK_CSV
        (saveTask "2026-01-01 10:05:00" "Task 1: Wait for User Input" "Yes" ""
          initSess emptyStorage).2.1
      = rowsAt TASK_CSV emptyStorage
        ++ [[Val.str "2026-01-01 10:05:00", Val.str "Task 1: Wait for User Input",
             Val.str "Yes", Val.str "", Val.str ""]] := by
  refine ⟨rfl, by decide, by simp [emptyStorage], ?_⟩
  exact claim_C6_save_without_duration "2026-01-01 10:05:00"
    "Task 1: Wait for User Input" "Yes" "" initSess emptyStorage rfl
    (by decide) (by simp [emptyStorage])

/-- Counterexample to claim C7: `save_to_csv` does not write one record
per call — two sequential calls with the same record leave one row in the
file, not two, because the memoization cache swallows the second call. -/
theorem claim_C7_duplicate_append_writes_once :
    rowsAt CONSENT_CSV
      (save_to_csv sampleConsentDict CONSENT_CSV
        (save_to_csv sampleConsentDict CONSENT_CSV emptyStorage))
      = [sampleConsentDict.map Prod.snd]
    ∧ (rowsAt CONSENT_CSV
        (save_to_csv sampleConsentDict CONSENT_CSV
          (save_to_csv sampleConsentDict CONSENT_CSV emptyStorage))).length ≠ 2 := by
  constructor
  · simp [save_to_csv, emptyStorage, rowsAt, findAssoc, setAssoc, sampleConsentDict]
  · simp [save_to_csv, emptyStorage, rowsAt, findAssoc, setAssoc, sampleConsentDict]

/-- Claim C7 as amended: an append whose (record, path) argument pair is
not in the memoization cache writes exactly one record — creating the
file with its header when absent, appending without touching the header
otherwise — and a read of a not-yet-memoized path returns every appended
record in insertion order, in particular for two sequential uncached
appends. -/
theorem claim_C7_append_readAll_contract :
    ∀ (d : Dict) (p : String) (st : Storage), (d, p) ∉ st.saveCache →
      (rowsAt p (save_to_csv d p st) = rowsAt p st ++ [d.map Prod.snd])
      ∧ (findAssoc p st.files = none →
          findAssoc p (save_to_csv d p st).files
            = some ⟨d.map Prod.fst, [d.map Prod.snd]⟩)
      ∧ (∀ f : CsvFile, findAssoc p st.files = some f →
          findAssoc p (save_to_csv d p st).files
            = some ⟨f.header, f.rows ++ [d.map Prod.snd]⟩)
      ∧ (findAssoc p st.loadCache = none →
          (load_from_csv p (save_to_csv d p st)).1.rows
            = rowsAt p st ++ [d.map Prod.snd])
      ∧ (∀ d2 : Dict, (d2, p) ∉ (save_to_csv d p st).saveCache →
          rowsAt p (save_to_csv d2 p (save_to_csv d p st))
            = rowsAt p st ++ [d.map Prod.snd, d2.map Prod.snd]) := by
  intro d p st h
  refine ⟨rowsAt_save h, fun hf => ?_, fun f hf => ?_, fun hl => ?_, fun d2 h2 => ?_⟩
  · unfold save_to_csv
    simp [h, hf, findAssoc_setAssoc]
  · unfold save_to_csv
    simp [h, hf, findAssoc_setAssoc]
  · have h2 : findAssoc p (save_to_csv d p st).loadCache = none := by
      rw [save_loadCache]
      exact hl
    rw [load_uncached_rows h2, rowsAt_save h]
  · rw [rowsAt_save h2, rowsAt_save h, List.append_assoc]
    rfl

/-- Witness for the amended claim C7: a first consent append on fresh
storage appends exactly its one record. -/
theorem claim_C7_append_readAll_witness :
    ((sampleConsentDict, CONSENT_CSV) ∉ emptyStorage.saveCache)
    ∧ rowsAt CONSENT_CSV (save_to_csv sampleConsentDict CONSENT_CSV emptyStorage)
        = rowsAt CONSENT_CSV emptyStorage ++ [sampleConsentDict.map Prod.snd] := by
  refine ⟨by simp [emptyStorage], ?_⟩
  exact (claim_C7_append_readAll_contract sampleConsentDict CONSENT_CSV
    emptyStorage (by simp [emptyStorage])).1

/-- Claim C8: reading a table with no backing file (and no memoized read)
returns the empty DataFrame rather than failing; the report shows each
table's "no data yet" indicator exactly when that table's DataFrame is
empty, and on fresh storage all four indicators are shown. -/
theorem claim_C8_empty_read_no_data_indicator :
    (∀ (p : String) (st : Storage),
      findAssoc p st.files = none → findAssoc p st.loadCache = none →
      (load_from_csv p st).1 = ⟨[], []⟩)
    ∧ (∀ st : Storage,
        (reportView st).1.consentNoData = (reportView st).1.consentDf.isEmpty
        ∧ (reportView st).1.demographicNoData
            = (reportView st).1.demographicDf.isEmpty
        ∧ (reportView st).1.taskNoData = (reportView st).1.taskDf.isEmpty
        ∧ (reportView st).1.exitNoData = (reportView st).1.exitDf.isEmpty)
    ∧ ((reportView emptyStorage).1.consentNoData = true
        ∧ (reportView emptyStorage).1.demographicNoData = true
        ∧ (reportView emptyStorage).1.taskNoData = true
        ∧ (reportView emptyStorage).1.exitNoData = true) := by
  refine ⟨fun p st hf hl => ?_, fun st => ⟨rfl, rfl, rfl, rfl⟩, ?_⟩
  · unfold load_from_csv
    simp [hl, hf]
  · refine ⟨?_, ?_, ?_, ?_⟩ <;>
      simp [reportView, load_from_csv, emptyStorage, findAssoc,
        DataFrame.isEmpty, CONSENT_CSV, DEMOGRAPHIC_CSV, TASK_CSV, EXIT_CSV]

/-- Witness for claim C8: the task table on fresh storage has no backing
file and its read returns the empty DataFrame. -/
theorem claim_C8_empty_read_witness :
    (findAssoc TASK_CSV emptyStorage.files = none)
    ∧ (findAssoc TASK_CSV emptyStorage.loadCache = none)
    ∧ (load_from_csv TASK_CSV emptyStorage).1 = ⟨[], []⟩ :=
  ⟨rfl, rfl, claim_C8_empty_read_no_data_indicator.1 TASK_CSV emptyStorage rfl rfl⟩

end UsabilityApp
